import Mathlib

/-!
Verification of the gesture-to-mode state machine and camera mapper of the
christmas-tree repository.

The embedding follows the source:
  * `src/components/GestureController.tsx` — per-frame gesture classification
    (`detectGesture`) and the debounce counters `openFrames` / `closedFrames`
    with `CONFIDENCE_THRESHOLD = 5`;
  * `src/App.tsx` — the external `toggleMode` force-write of the mode;
  * `src/components/Experience.tsx` — the per-render-tick camera mapper
    (`useFrame`): distance approach, azimuth wraparound, polar mapping.
-/

/-- The two visualization modes (`TreeMode` in `src/types`). -/
inductive TreeMode : Type
  | FORMED
  | CHAOS
  deriving DecidableEq, Repr

/-- The per-frame gesture category produced upstream of the debouncer.
`NONE` is the no-hand case handled in `predictWebcam`; the other four are
the outcomes of `detectGesture`. -/
inductive Gesture : Type
  | PINCH
  | OPEN
  | CLOSED
  | AMBIGUOUS
  | NONE
  deriving DecidableEq, Repr

/-- `CONFIDENCE_THRESHOLD = 5` (GestureController.tsx, line 33). -/
def CONFIDENCE_THRESHOLD : ℕ := 5

/-- The controller's persistent state: the two debounce counters
(`openFrames.current`, `closedFrames.current`) and the last applied mode
(`lastModeRef.current`). The counters are natural numbers: the source only
ever increments them from 0 or decays them with `Math.max(0, x - 1)`. -/
structure GestureState : Type where
  openFrames : ℕ
  closedFrames : ℕ
  lastMode : TreeMode
  deriving DecidableEq, Repr

/-- What one detector tick produces besides the new state: the list of
`onModeChange` calls and the list of `onTwoHandsDetected` boolean signals
made during that tick, in order. -/
structure StepOut : Type where
  state : GestureState
  modeEvents : List TreeMode
  pinchSignals : List Bool
  deriving DecidableEq, Repr

/-- One detector tick of the controller, as a function of the frame's gesture
category.  Mirrors `detectGesture` (GestureController.tsx lines 262–294) for
`PINCH`/`OPEN`/`CLOSED`/`AMBIGUOUS` and the no-hand branch of `predictWebcam`
(lines 177–195) for `NONE`:

  * `PINCH`: `openFrames++`, `closedFrames = 0`; if the incremented
    `openFrames > CONFIDENCE_THRESHOLD` then `onTwoHandsDetected(true)`
    (and nothing otherwise);
  * `OPEN`: both counters to 0; if `lastModeRef ≠ CHAOS` then set it to
    `CHAOS` and call `onModeChange(CHAOS)`; then `onTwoHandsDetected(false)`;
  * `CLOSED`: `closedFrames++`, `openFrames = 0`; if the incremented
    `closedFrames > CONFIDENCE_THRESHOLD` and `lastModeRef ≠ FORMED` then set
    it to `FORMED` and call `onModeChange(FORMED)`; then
    `onTwoHandsDetected(false)`;
  * `AMBIGUOUS`: both counters to 0, `onTwoHandsDetected(false)`;
  * `NONE`: `onTwoHandsDetected(false)`, `openFrames = max 0 (openFrames-1)`,
    `closedFrames = max 0 (closedFrames-1)`; the mode is untouched. -/
def step (s : GestureState) : Gesture → StepOut
  | Gesture.PINCH =>
      let o := s.openFrames + 1
      { state := { openFrames := o, closedFrames := 0, lastMode := s.lastMode }
        modeEvents := []
        pinchSignals := if CONFIDENCE_THRESHOLD < o then [true] else [] }
  | Gesture.OPEN =>
      if s.lastMode ≠ TreeMode.CHAOS then
        { state := { openFrames := 0, closedFrames := 0, lastMode := TreeMode.CHAOS }
          modeEvents := [TreeMode.CHAOS]
          pinchSignals := [false] }
      else
        { state := { openFrames := 0, closedFrames := 0, lastMode := s.lastMode }
          modeEvents := []
          pinchSignals := [false] }
  | Gesture.CLOSED =>
      let c := s.closedFrames + 1
      if CONFIDENCE_THRESHOLD < c ∧ s.lastMode ≠ TreeMode.FORMED then
        { state := { openFrames := 0, closedFrames := c, lastMode := TreeMode.FORMED }
          modeEvents := [TreeMode.FORMED]
          pinchSignals := [false] }
      else
        { state := { openFrames := 0, closedFrames := c, lastMode := s.lastMode }
          modeEvents := []
          pinchSignals := [false] }
  | Gesture.AMBIGUOUS =>
      { state := { openFrames := 0, closedFrames := 0, lastMode := s.lastMode }
        modeEvents := []
        pinchSignals := [false] }
  | Gesture.NONE =>
      { state := { openFrames := s.openFrames - 1, closedFrames := s.closedFrames - 1
                   lastMode := s.lastMode }
        modeEvents := []
        pinchSignals := [false] }

/-- Run the controller over a list of per-frame gesture categories, returning
the final state and the concatenated list of `onModeChange` events. -/
def processFrames (s : GestureState) : List Gesture → GestureState × List TreeMode
  | [] => (s, [])
  | g :: gs =>
      let o := step s g
      let r := processFrames o.state gs
      (r.1, o.modeEvents ++ r.2)

/-- `toggleMode` in `src/App.tsx` (lines 321–325): flip the mode. -/
def toggleMode : TreeMode → TreeMode
  | TreeMode.FORMED => TreeMode.CHAOS
  | TreeMode.CHAOS => TreeMode.FORMED

/-- The controller's reaction to an externally written `currentMode`
(GestureController.tsx lines 311–313): it only re-synchronizes
`lastModeRef.current`; the debounce counters are not touched. -/
def syncLastMode (s : GestureState) (currentMode : TreeMode) : GestureState :=
  { s with lastMode := currentMode }

/-- Controller state at startup: both counters 0, `lastModeRef` initialized
from the `currentMode` prop. -/
def initialState (m : TreeMode) : GestureState :=
  { openFrames := 0, closedFrames := 0, lastMode := m }

open Real in
/-- `Math.hypot(a, b)` restricted to two arguments, as the source uses it. -/
noncomputable def hypot (a b : ℝ) : ℝ :=
  Real.sqrt (a ^ 2 + b ^ 2)

/-- One hand landmark: normalized coordinates (`z` unused by the logic). -/
structure Landmark : Type where
  x : ℝ
  y : ℝ
  z : ℝ

/-- A detected hand: 21 landmarks in fixed anatomical order. -/
def Hand : Type := Fin 21 → Landmark

/-- Planar distance between two landmarks, exactly as every distance in
`detectGesture` is computed: `Math.hypot(p.x - q.x, p.y - q.y)`. -/
noncomputable def ldist (p q : Landmark) : ℝ :=
  hypot (p.x - q.x) (p.y - q.y)

/-- The loop of `detectGesture` (lines 225–231): the number of non-thumb
fingers (tips 8/12/16/20, bases 5/9/13/17) with
`distTip > distBase * 1.5`, the wrist being landmark 0. -/
noncomputable def countExtended (h : Hand) : ℕ :=
  (if ldist (h 8) (h 0) > ldist (h 5) (h 0) * 1.5 then 1 else 0)
  + (if ldist (h 12) (h 0) > ldist (h 9) (h 0) * 1.5 then 1 else 0)
  + (if ldist (h 16) (h 0) > ldist (h 13) (h 0) * 1.5 then 1 else 0)
  + (if ldist (h 20) (h 0) > ldist (h 17) (h 0) * 1.5 then 1 else 0)

/-- `extendedFingers` after the thumb test (lines 233–243): thumb (tip 4,
base 2) counts as extended iff `distThumbTip > distThumbBase * 1.2`. -/
noncomputable def extendedFingers (h : Hand) : ℕ :=
  countExtended h + (if ldist (h 4) (h 0) > ldist (h 2) (h 0) * 1.2 then 1 else 0)

/-- `isIndexExtended` (line 255): `distIndexTip > distIndexBase * 1.1`. -/
def IsIndexExtended (h : Hand) : Prop :=
  ldist (h 8) (h 0) > ldist (h 5) (h 0) * 1.1

/-- `pinchDistance` (lines 256–259): thumb tip (4) to index tip (8). -/
noncomputable def pinchDistance (h : Hand) : ℝ :=
  ldist (h 4) (h 8)

/-- `isPinching` (line 260): `pinchDistance < 0.08 && isIndexExtended`. -/
def IsPinching (h : Hand) : Prop :=
  pinchDistance h < 0.08 ∧ IsIndexExtended h

open Classical in
/-- The branch structure of `detectGesture` (lines 262–294) as a pure
classification: `isPinching` → PINCH, else `extendedFingers >= 4` → OPEN,
else `extendedFingers <= 1` → CLOSED, else AMBIGUOUS. -/
noncomputable def classify (h : Hand) : Gesture :=
  if IsPinching h then Gesture.PINCH
  else if 4 ≤ extendedFingers h then Gesture.OPEN
  else if extendedFingers h ≤ 1 then Gesture.CLOSED
  else Gesture.AMBIGUOUS

/-- All five digits pass their extension tests (the four per-finger tests of
the loop plus the thumb test). -/
def AllFiveExtended (h : Hand) : Prop :=
  ldist (h 8) (h 0) > ldist (h 5) (h 0) * 1.5
  ∧ ldist (h 12) (h 0) > ldist (h 9) (h 0) * 1.5
  ∧ ldist (h 16) (h 0) > ldist (h 13) (h 0) * 1.5
  ∧ ldist (h 20) (h 0) > ldist (h 17) (h 0) * 1.5
  ∧ ldist (h 4) (h 0) > ldist (h 2) (h 0) * 1.2

/-- The hand-position input of the camera mapper: palm-center coordinates and
the detected flag, as delivered by `onHandPosition`. -/
structure HandPos : Type where
  x : ℝ
  y : ℝ
  detected : Bool

/-- The camera orbit parameters the `useFrame` callback of
`src/components/Experience.tsx` reads and writes. -/
structure CameraState : Type where
  azimuth : ℝ
  polar : ℝ
  distance : ℝ

/-- `targetDistance` (Experience.tsx line 53): 35 in CHAOS mode, else 25. -/
def distanceTarget (m : TreeMode) : ℝ :=
  if m = TreeMode.CHAOS then 35 else 25

open Classical in
/-- The distance update (Experience.tsx lines 53–62): when
`|targetDistance - current| > 0.5`, move to
`current + (targetDistance - current) * 0.08`; otherwise leave it. -/
noncomputable def stepDistance (m : TreeMode) (d : ℝ) : ℝ :=
  if 0.5 < |distanceTarget m - d| then d + (distanceTarget m - d) * 0.08 else d

open Real in
/-- `targetAzimuth` (line 66): `(x - 0.5) * Math.PI * 1.5`. -/
noncomputable def targetAzimuth (x : ℝ) : ℝ :=
  (x - 0.5) * π * 1.5

open Real in
/-- The wraparound correction of lines 73–75: start from
`target - current`, subtract `2π` if the result exceeds `π`, then add `2π`
if the (possibly already corrected) result is below `-π`. -/
noncomputable def azimuthDiff (current target : ℝ) : ℝ :=
  let d0 := target - current
  let d1 := if d0 > π then d0 - π * 2 else d0
  if d1 < -π then d1 + π * 2 else d1

open Classical in
/-- The azimuth update (lines 77–79): apply `current + diff * 0.15` only when
`|diff| > 0.01`. -/
noncomputable def stepAzimuth (current target : ℝ) : ℝ :=
  if 0.01 < |azimuthDiff current target| then
    current + azimuthDiff current target * 0.15
  else current

open Real in
/-- `minPolar = π/4` (line 67). -/
noncomputable def minPolar : ℝ := π / 4

open Real in
/-- `maxPolar = π/1.8` (line 68). -/
noncomputable def maxPolar : ℝ := π / 1.8

/-- `targetPolar` (lines 69–70): `minPolar + (1 - y) * (maxPolar - minPolar)`. -/
noncomputable def targetPolar (y : ℝ) : ℝ :=
  minPolar + (1 - y) * (maxPolar - minPolar)

open Classical in
/-- The polar update (lines 81–86): apply `current + diff * 0.1` only when
`|diff| > 0.01`. -/
noncomputable def stepPolar (current target : ℝ) : ℝ :=
  if 0.01 < |target - current| then current + (target - current) * 0.1
  else current

/-- The body of the `useFrame` callback once it runs (even frame count):
distance update always, azimuth and polar updates only when
`handPosition.detected`. -/
noncomputable def updateCamera (m : TreeMode) (hand : HandPos) (c : CameraState) :
    CameraState :=
  let c1 : CameraState := { c with distance := stepDistance m c.distance }
  if hand.detected then
    { azimuth := stepAzimuth c1.azimuth (targetAzimuth hand.x)
      polar := stepPolar c1.polar (targetPolar hand.y)
      distance := c1.distance }
  else c1

/-- One render tick (Experience.tsx lines 45–91): increment `frameCount`,
return unchanged when the new count is odd (`frameCount % 2 !== 0`), else run
the camera update.  Returns the new camera state and frame count. -/
noncomputable def renderTick (m : TreeMode) (hand : HandPos) (c : CameraState)
    (frameCount : ℕ) : CameraState × ℕ :=
  let fc := frameCount + 1
  if fc % 2 ≠ 0 then (c, fc) else (updateCamera m hand c, fc)

/-- Gesture frames classified `OPEN` never produce `onModeChange` events and
leave `lastModeRef` at `CHAOS` once it is `CHAOS`. -/
theorem openStreakSilent (n : ℕ) (s : GestureState)
    (h : s.lastMode = TreeMode.CHAOS) :
    (processFrames s (List.replicate n Gesture.OPEN)).2 = []
    ∧ (processFrames s (List.replicate n Gesture.OPEN)).1.lastMode
        = TreeMode.CHAOS := by
  induction n generalizing s with
  | zero => simpa [processFrames] using h
  | succ n ih =>
      rw [List.replicate_succ]
      have hs : step s Gesture.OPEN =
          { state := { openFrames := 0, closedFrames := 0, lastMode := s.lastMode }
            modeEvents := [], pinchSignals := [false] } := by
        simp [step, h]
      simp only [processFrames, hs]
      have hrec := ih { openFrames := 0, closedFrames := 0, lastMode := s.lastMode }
        (by simpa using h)
      simpa using hrec

/-- C1 (corrected): from `Mode = CHAOS` with `closedFrames = 0`, a single
CLOSED frame does not change the mode and emits no mode event; five
consecutive CLOSED frames still leave the mode at CHAOS (the transition fires
only when `closedFrames` strictly exceeds `CONFIDENCE_THRESHOLD = 5`), while
six consecutive CLOSED frames transition the mode to FORMED with exactly one
mode event. -/
theorem closed_debounce_C1 (s : GestureState)
    (h1 : s.lastMode = TreeMode.CHAOS) (h2 : s.closedFrames = 0) :
    ((step s Gesture.CLOSED).state.lastMode = TreeMode.CHAOS
      ∧ (step s Gesture.CLOSED).modeEvents = [])
    ∧ (processFrames s (List.replicate 5 Gesture.CLOSED)).1.lastMode
        = TreeMode.CHAOS
    ∧ (processFrames s (List.replicate 6 Gesture.CLOSED)).1.lastMode
        = TreeMode.FORMED
    ∧ (processFrames s (List.replicate 6 Gesture.CLOSED)).2
        = [TreeMode.FORMED] := by
  obtain ⟨o, c, m⟩ := s
  simp only [GestureState.mk.injEq] at *
  subst h1; subst h2
  refine ⟨⟨?_, ?_⟩, ?_, ?_, ?_⟩ <;>
    simp [processFrames, step, CONFIDENCE_THRESHOLD, List.replicate]

/-- C1 counterexample: starting from `Mode = CHAOS` with fresh counters, five
consecutive CLOSED-classified frames do NOT transition the mode to FORMED
(no mode event is emitted and the mode stays CHAOS). -/
theorem closed_five_frames_insufficient_C1 :
    (processFrames (initialState TreeMode.CHAOS)
        (List.replicate 5 Gesture.CLOSED)).1.lastMode = TreeMode.CHAOS
    ∧ ¬ (processFrames (initialState TreeMode.CHAOS)
        (List.replicate 5 Gesture.CLOSED)).1.lastMode = TreeMode.FORMED
    ∧ (processFrames (initialState TreeMode.CHAOS)
        (List.replicate 5 Gesture.CLOSED)).2 = [] := by decide

/-- C1 witness: the corrected statement applied at the initial CHAOS state. -/
theorem closed_debounce_C1_witness :
    ((step (initialState TreeMode.CHAOS) Gesture.CLOSED).state.lastMode
        = TreeMode.CHAOS
      ∧ (step (initialState TreeMode.CHAOS) Gesture.CLOSED).modeEvents = [])
    ∧ (processFrames (initialState TreeMode.CHAOS)
        (List.replicate 5 Gesture.CLOSED)).1.lastMode = TreeMode.CHAOS
    ∧ (processFrames (initialState TreeMode.CHAOS)
        (List.replicate 6 Gesture.CLOSED)).1.lastMode = TreeMode.FORMED
    ∧ (processFrames (initialState TreeMode.CHAOS)
        (List.replicate 6 Gesture.CLOSED)).2 = [TreeMode.FORMED] :=
  closed_debounce_C1 (initialState TreeMode.CHAOS) rfl rfl

/-- C2: if the last applied mode is not CHAOS, a single OPEN frame
immediately transitions it to CHAOS and emits the CHAOS event; a contiguous
streak of `n + 1` OPEN frames emits the CHAOS transition event exactly once
(the guard against the last-applied mode suppresses duplicates). -/
theorem open_immediate_C2 (s : GestureState) (n : ℕ)
    (h : s.lastMode ≠ TreeMode.CHAOS) :
    ((step s Gesture.OPEN).state.lastMode = TreeMode.CHAOS
      ∧ (step s Gesture.OPEN).modeEvents = [TreeMode.CHAOS])
    ∧ (processFrames s (List.replicate (n + 1) Gesture.OPEN)).2
        = [TreeMode.CHAOS]
    ∧ (processFrames s (List.replicate (n + 1) Gesture.OPEN)).1.lastMode
        = TreeMode.CHAOS := by
  have hs : step s Gesture.OPEN =
      { state := { openFrames := 0, closedFrames := 0, lastMode := TreeMode.CHAOS }
        modeEvents := [TreeMode.CHAOS], pinchSignals := [false] } := by
    simp [step, h]
  have hrest := openStreakSilent n
    { openFrames := 0, closedFrames := 0, lastMode := TreeMode.CHAOS } rfl
  constructor
  · exact ⟨by simp [hs], by simp [hs]⟩
  · rw [List.replicate_succ]
    simp only [processFrames, hs]
    simpa using hrest

/-- C2 witness: the theorem applied from FORMED with a streak of 7 OPEN
frames. -/
theorem open_immediate_C2_witness :
    ((step (initialState TreeMode.FORMED) Gesture.OPEN).state.lastMode
        = TreeMode.CHAOS
      ∧ (step (initialState TreeMode.FORMED) Gesture.OPEN).modeEvents
        = [TreeMode.CHAOS])
    ∧ (processFrames (initialState TreeMode.FORMED)
        (List.replicate 7 Gesture.OPEN)).2 = [TreeMode.CHAOS]
    ∧ (processFrames (initialState TreeMode.FORMED)
        (List.replicate 7 Gesture.OPEN)).1.lastMode = TreeMode.CHAOS :=
  open_immediate_C2 (initialState TreeMode.FORMED) 6 (by decide)

/-- C3 (corrected): the external toggle is a direct mode write bypassing
gesture confidence (it flips FORMED ⇄ CHAOS), and the controller reacts by
re-synchronizing its last-applied-mode ref only: both debounce counters keep
their values.  Consequently a stale counter CAN cause an immediate
re-transition: after forcing CHAOS while `closedFrames = 10`, one further
CLOSED frame emits the FORMED transition at once. -/
theorem toggle_sync_C3 (s : GestureState) (m : TreeMode) :
    (syncLastMode s m).openFrames = s.openFrames
    ∧ (syncLastMode s m).closedFrames = s.closedFrames
    ∧ (syncLastMode s m).lastMode = m
    ∧ toggleMode TreeMode.FORMED = TreeMode.CHAOS
    ∧ toggleMode TreeMode.CHAOS = TreeMode.FORMED
    ∧ (step (syncLastMode
          { openFrames := 0, closedFrames := 10, lastMode := TreeMode.FORMED }
          TreeMode.CHAOS) Gesture.CLOSED).modeEvents = [TreeMode.FORMED] := by
  refine ⟨rfl, rfl, rfl, rfl, rfl, by decide⟩

/-- C3 counterexample: toggling the mode away from FORMED while
`openFrames = 3` leaves `openFrames` at 3 — the forced write does NOT reset
the debounce counters to 0. -/
theorem toggle_sync_C3_cex :
    (syncLastMode { openFrames := 3, closedFrames := 0, lastMode := TreeMode.FORMED }
        (toggleMode TreeMode.FORMED)).openFrames = 3
    ∧ ¬ ((syncLastMode { openFrames := 3, closedFrames := 0, lastMode := TreeMode.FORMED }
        (toggleMode TreeMode.FORMED)).openFrames = 0
      ∧ (syncLastMode { openFrames := 3, closedFrames := 0, lastMode := TreeMode.FORMED }
        (toggleMode TreeMode.FORMED)).closedFrames = 0) := by decide

/-- C7: a NONE frame decrements both counters by 1 saturating at 0 (stated
over ℤ to make the saturation explicit), leaves the mode untouched and emits
no mode event; and the spec's scenario holds: from `openFrames = 4`, three
NONE frames decay it to 1 and a following PINCH frame raises it to 2. -/
theorem none_decays_C7 (s : GestureState) :
    (((step s Gesture.NONE).state.openFrames : ℤ)
        = max 0 ((s.openFrames : ℤ) - 1)
      ∧ ((step s Gesture.NONE).state.closedFrames : ℤ)
        = max 0 ((s.closedFrames : ℤ) - 1)
      ∧ (step s Gesture.NONE).state.lastMode = s.lastMode
      ∧ (step s Gesture.NONE).modeEvents = [])
    ∧ ∀ m : TreeMode,
        (processFrames { openFrames := 4, closedFrames := 0, lastMode := m }
          [Gesture.NONE, Gesture.NONE, Gesture.NONE, Gesture.PINCH]).1.openFrames
          = 2 := by
  refine ⟨⟨?_, ?_, rfl, rfl⟩, ?_⟩
  · simp only [step]; omega
  · simp only [step]; omega
  · intro m; cases m <;> decide

/-- C9 (corrected): each detector tick makes at most one `onTwoHandsDetected`
call; it makes none exactly when the frame is PINCH with the incremented
`openFrames` still at or below the confidence threshold, and the call is
`true` exactly when the frame is PINCH with the incremented `openFrames`
beyond the threshold (every other tick signals `false` once). -/
theorem pinch_signal_C9 (s : GestureState) (g : Gesture) :
    ((step s g).pinchSignals.length
        = if g = Gesture.PINCH ∧ s.openFrames + 1 ≤ CONFIDENCE_THRESHOLD
          then 0 else 1)
    ∧ ((step s g).pinchSignals = [true]
        ↔ g = Gesture.PINCH ∧ CONFIDENCE_THRESHOLD < s.openFrames + 1)
    ∧ ((step s g).pinchSignals = []
        ↔ g = Gesture.PINCH ∧ s.openFrames + 1 ≤ CONFIDENCE_THRESHOLD) := by
  cases g <;>
    (simp only [step, CONFIDENCE_THRESHOLD]; split_ifs) <;>
    simp_all <;>
    omega

/-- C9 counterexample: a PINCH frame from fresh counters produces NO
`onTwoHandsDetected` call at all on that detector tick (zero signals, not
exactly one). -/
theorem pinch_signal_C9_cex :
    (step (initialState TreeMode.FORMED) Gesture.PINCH).pinchSignals = []
    ∧ (step (initialState TreeMode.FORMED) Gesture.PINCH).pinchSignals.length
        ≠ 1 := by decide

/-- Every single tick of the controller preserves the property that one of
the two debounce counters is zero. -/
theorem stepPreservesExclusive (s : GestureState) (g : Gesture)
    (h : s.openFrames = 0 ∨ s.closedFrames = 0) :
    (step s g).state.openFrames = 0 ∨ (step s g).state.closedFrames = 0 := by
  cases g <;> simp only [step] <;> try simp
  · split_ifs <;> simp
  · split_ifs <;> simp
  · omega

/-- C10: from any state in which one debounce counter is zero (the initial
state in particular), after any sequence of processed frames one of the two
counters is still zero — each incrementing branch zeroes the other counter
and NONE-decay preserves the zero — hence the two counters are never both
above the confidence threshold. -/
theorem counters_exclusive_C10 (s : GestureState) (gs : List Gesture)
    (h : s.openFrames = 0 ∨ s.closedFrames = 0) :
    ((processFrames s gs).1.openFrames = 0
      ∨ (processFrames s gs).1.closedFrames = 0)
    ∧ ¬ (CONFIDENCE_THRESHOLD < (processFrames s gs).1.openFrames
        ∧ CONFIDENCE_THRESHOLD < (processFrames s gs).1.closedFrames) := by
  have main : ∀ (gs : List Gesture) (s : GestureState),
      (s.openFrames = 0 ∨ s.closedFrames = 0) →
      ((processFrames s gs).1.openFrames = 0
        ∨ (processFrames s gs).1.closedFrames = 0) := by
    intro gs
    induction gs with
    | nil => intro s hs; simpa [processFrames] using hs
    | cons g gs ih =>
        intro s hs
        simp only [processFrames]
        exact ih (step s g).state (stepPreservesExclusive s g hs)
  have hm := main gs s h
  refine ⟨hm, ?_⟩
  rcases hm with h0 | h0 <;> rw [h0] <;> simp [CONFIDENCE_THRESHOLD]

/-- C10 witness: the invariant applied to a concrete run from the initial
state. -/
theorem counters_exclusive_C10_witness :
    ((processFrames (initialState TreeMode.FORMED)
        [Gesture.PINCH, Gesture.PINCH, Gesture.CLOSED, Gesture.NONE]).1.openFrames = 0
      ∨ (processFrames (initialState TreeMode.FORMED)
        [Gesture.PINCH, Gesture.PINCH, Gesture.CLOSED, Gesture.NONE]).1.closedFrames = 0)
    ∧ ¬ (CONFIDENCE_THRESHOLD < (processFrames (initialState TreeMode.FORMED)
        [Gesture.PINCH, Gesture.PINCH, Gesture.CLOSED, Gesture.NONE]).1.openFrames
        ∧ CONFIDENCE_THRESHOLD < (processFrames (initialState TreeMode.FORMED)
        [Gesture.PINCH, Gesture.PINCH, Gesture.CLOSED, Gesture.NONE]).1.closedFrames) :=
  counters_exclusive_C10 (initialState TreeMode.FORMED)
    [Gesture.PINCH, Gesture.PINCH, Gesture.CLOSED, Gesture.NONE] (Or.inl rfl)

open Real

/-- The concrete distance update at distance 25 in CHAOS mode. -/
theorem stepDistanceChaos25 : stepDistance TreeMode.CHAOS 25 = 25.8 := by
  have ht : distanceTarget TreeMode.CHAOS = 35 := rfl
  have habs : |distanceTarget TreeMode.CHAOS - (25 : ℝ)| = 10 := by
    rw [ht, show (35 : ℝ) - 25 = 10 by norm_num]
    exact abs_of_pos (by norm_num)
  rw [stepDistance, if_pos (by rw [habs]; norm_num), ht]
  norm_num

/-- C4 (corrected): the distance mapper is active only on every second render
tick (a tick with odd incremented frame count changes nothing); when active
and `|target - current| > 0.5`, it updates the distance by
`current + (target - current) * 0.08` toward the target 35 (CHAOS) or 25
(otherwise), and within the dead zone it leaves the distance unchanged.  The
approach never overshoots: the new distance stays between the old distance
and the target. -/
theorem distance_approach_C4 :
    (∀ (m : TreeMode) (d : ℝ), 0.5 < |distanceTarget m - d| →
        stepDistance m d = d + (distanceTarget m - d) * 0.08)
    ∧ (∀ (m : TreeMode) (d : ℝ), |distanceTarget m - d| ≤ 0.5 →
        stepDistance m d = d)
    ∧ (∀ (m : TreeMode) (d : ℝ), d ≤ distanceTarget m →
        d ≤ stepDistance m d ∧ stepDistance m d ≤ distanceTarget m)
    ∧ (∀ (m : TreeMode) (d : ℝ), distanceTarget m ≤ d →
        distanceTarget m ≤ stepDistance m d ∧ stepDistance m d ≤ d)
    ∧ (∀ (m : TreeMode) (hand : HandPos) (c : CameraState) (fc : ℕ),
        (fc + 1) % 2 ≠ 0 → renderTick m hand c fc = (c, fc + 1))
    ∧ distanceTarget TreeMode.CHAOS = 35 ∧ distanceTarget TreeMode.FORMED = 25 := by
  refine ⟨?_, ?_, ?_, ?_, ?_, rfl, rfl⟩
  · intro m d h
    rw [stepDistance, if_pos h]
  · intro m d h
    rw [stepDistance, if_neg (not_lt.mpr h)]
  · intro m d h
    rw [stepDistance]
    split_ifs with hz
    · constructor <;> nlinarith
    · exact ⟨le_refl d, h⟩
  · intro m d h
    rw [stepDistance]
    split_ifs with hz
    · constructor <;> nlinarith
    · exact ⟨h, le_refl d⟩
  · intro m hand c fc h
    rw [renderTick, if_pos h]

/-- C4 witness: the corrected statement applied at mode CHAOS, distance 25,
and at a skipped (odd) render tick. -/
theorem distance_approach_C4_witness :
    stepDistance TreeMode.CHAOS 25 = 25 + (distanceTarget TreeMode.CHAOS - 25) * 0.08
    ∧ (25 ≤ stepDistance TreeMode.CHAOS 25
        ∧ stepDistance TreeMode.CHAOS 25 ≤ distanceTarget TreeMode.CHAOS)
    ∧ renderTick TreeMode.FORMED ⟨0.5, 0.5, false⟩ ⟨0, 1, 25⟩ 0
        = (⟨0, 1, 25⟩, 1) :=
  ⟨distance_approach_C4.1 TreeMode.CHAOS 25
      (by rw [show distanceTarget TreeMode.CHAOS - (25:ℝ) = 10 from by norm_num [distanceTarget]]
          rw [abs_of_pos (by norm_num : (0:ℝ) < 10)]; norm_num),
   distance_approach_C4.2.2.1 TreeMode.CHAOS 25 (by norm_num [distanceTarget]),
   distance_approach_C4.2.2.2.2.1 TreeMode.FORMED ⟨0.5, 0.5, false⟩ ⟨0, 1, 25⟩ 0
      (by norm_num)⟩

/-- C4 counterexample: at distance 25 in CHAOS mode the code moves to
`25 + 10 * 0.08 = 25.8`, not to `25 + 10 * 0.05 = 25.5` — the per-tick
distance factor is 0.08, not the claimed 0.05. -/
theorem distance_approach_C4_cex :
    stepDistance TreeMode.CHAOS 25 = 25.8
    ∧ ¬ stepDistance TreeMode.CHAOS 25 = 25 + (35 - 25) * 0.05 := by
  refine ⟨stepDistanceChaos25, ?_⟩
  rw [stepDistanceChaos25]
  norm_num

/-- C8 (corrected): on a render tick whose hand position is undetected, the
azimuth and the polar angle always keep their previous values (no decay
toward any default), while the distance is NOT held: it still follows the
mode-target approach on every active (even) tick. -/
theorem nohand_orbit_C8 (m : TreeMode) (x y : ℝ) (c : CameraState) (fc : ℕ) :
    (renderTick m ⟨x, y, false⟩ c fc).1.azimuth = c.azimuth
    ∧ (renderTick m ⟨x, y, false⟩ c fc).1.polar = c.polar
    ∧ (renderTick m ⟨x, y, false⟩ c fc).1.distance
        = (if (fc + 1) % 2 ≠ 0 then c.distance else stepDistance m c.distance) := by
  simp only [renderTick, updateCamera]
  split_ifs <;> simp_all

/-- C8 counterexample: with no hand detected, CHAOS mode and current distance
25, the active render tick after frame count 1 changes the distance to 25.8 —
the orbit state does not hold all its last values. -/
theorem nohand_orbit_C8_cex :
    (renderTick TreeMode.CHAOS ⟨0.5, 0.5, false⟩ ⟨0, 1, 25⟩ 1).1.distance = 25.8
    ∧ (renderTick TreeMode.CHAOS ⟨0.5, 0.5, false⟩ ⟨0, 1, 25⟩ 1).1.distance ≠ 25 := by
  have h : (renderTick TreeMode.CHAOS ⟨0.5, 0.5, false⟩ ⟨0, 1, 25⟩ 1).1.distance
      = stepDistance TreeMode.CHAOS 25 := by
    simp only [renderTick, updateCamera]
    norm_num
  rw [h, stepDistanceChaos25]
  norm_num

/-- C5: the sequential wraparound correction of the code equals the
three-way case split of the spec (subtract `2π` when the raw difference
exceeds `π`, add `2π` when it is below `-π`, else keep it); whenever the
corrected difference clears the 0.01 dead zone the applied step is
`current + diff * 0.15`; the target azimuth is `(x - 0.5) * π * 1.5`; and at
current azimuth 3.0 with target −3.0 the corrected difference is
`2π − 6 ≈ +0.283` — the short way around, not ≈ 6. -/
theorem azimuth_wraparound_C5 :
    (∀ c t : ℝ, azimuthDiff c t =
        if t - c > π then t - c - 2 * π
        else if t - c < -π then t - c + 2 * π
        else t - c)
    ∧ (∀ c t : ℝ, 0.01 < |azimuthDiff c t| →
        stepAzimuth c t = c + azimuthDiff c t * 0.15)
    ∧ (∀ x : ℝ, targetAzimuth x = (x - 0.5) * π * 1.5)
    ∧ azimuthDiff 3 (-3) = 2 * π - 6
    ∧ |azimuthDiff 3 (-3) - 0.283| < 0.001
    ∧ 0 < azimuthDiff 3 (-3) := by
  have hthree : ∀ c t : ℝ, azimuthDiff c t =
      if t - c > π then t - c - 2 * π
      else if t - c < -π then t - c + 2 * π
      else t - c := by
    intro c t
    simp only [azimuthDiff]
    split_ifs <;> linarith
  have hinst : azimuthDiff 3 (-3) = 2 * π - 6 := by
    rw [hthree]
    have h1 : ¬ ((-3 : ℝ) - 3 > π) := by
      have := Real.pi_pos; push_neg; linarith
    have h2 : (-3 : ℝ) - 3 < -π := by
      have := Real.pi_lt_d2; linarith
    rw [if_neg h1, if_pos h2]
    ring
  refine ⟨hthree, ?_, fun x => rfl, hinst, ?_, ?_⟩
  · intro c t h
    rw [stepAzimuth, if_pos h]
  · rw [hinst]
    have hl := Real.pi_gt_d6
    have hu := Real.pi_lt_d6
    rw [abs_of_pos (by norm_num at hl ⊢; linarith)]
    norm_num at hl hu ⊢
    linarith
  · rw [hinst]
    have hl := Real.pi_gt_d6
    norm_num at hl ⊢
    linarith

/-- C5 witness: the step equation applied at current azimuth 3.0 and target
−3.0, whose corrected difference clears the dead zone. -/
theorem azimuth_wraparound_C5_witness :
    stepAzimuth 3 (-3) = 3 + azimuthDiff 3 (-3) * 0.15 :=
  azimuth_wraparound_C5.2.1 3 (-3) (by
    rw [azimuth_wraparound_C5.2.2.2.1]
    have hl := Real.pi_gt_d6
    rw [abs_of_pos (by norm_num at hl ⊢; linarith)]
    norm_num at hl ⊢
    linarith)

/-- Helper: on landmarks lying on the x-axis the planar distance is the
absolute coordinate difference. -/
theorem ldist_axis (a b : ℝ) : ldist ⟨a, 0, 0⟩ ⟨b, 0, 0⟩ = |a - b| := by
  simp [ldist, hypot, Real.sqrt_sq_eq_abs]

/-- C6: the classification is first-match-wins in the order PINCH, then OPEN
(`extendedFingers ≥ 4`), then CLOSED (`extendedFingers ≤ 1`), else
AMBIGUOUS; a hand satisfying the PINCH condition classifies as PINCH even if
it also satisfies the OPEN condition, and a hand with all five digits
extended and the PINCH condition false classifies as OPEN. -/
theorem classify_precedence_C6 (h : Hand) :
    (IsPinching h → classify h = Gesture.PINCH)
    ∧ (¬ IsPinching h → 4 ≤ extendedFingers h → classify h = Gesture.OPEN)
    ∧ (¬ IsPinching h → extendedFingers h < 4 → extendedFingers h ≤ 1 →
        classify h = Gesture.CLOSED)
    ∧ (¬ IsPinching h → 1 < extendedFingers h → extendedFingers h < 4 →
        classify h = Gesture.AMBIGUOUS)
    ∧ (AllFiveExtended h → extendedFingers h = 5)
    ∧ (AllFiveExtended h → ¬ IsPinching h → classify h = Gesture.OPEN) := by
  have hfive : AllFiveExtended h → extendedFingers h = 5 := by
    intro ⟨h1, h2, h3, h4, h5⟩
    rw [extendedFingers, countExtended, if_pos h1, if_pos h2, if_pos h3,
      if_pos h4, if_pos h5]
  refine ⟨?_, ?_, ?_, ?_, hfive, ?_⟩
  · intro hp
    rw [classify, if_pos hp]
  · intro hnp hext
    rw [classify, if_neg hnp, if_pos hext]
  · intro hnp hlt hle
    rw [classify, if_neg hnp, if_neg (by omega), if_pos hle]
  · intro hnp hgt hlt
    rw [classify, if_neg hnp, if_neg (by omega), if_neg (by omega)]
  · intro hall hnp
    rw [classify, if_neg hnp, if_pos (by rw [hfive hall]; omega)]

/-- x-coordinates of a hand on the x-axis that satisfies both the PINCH and
the OPEN condition: wrist at 0, finger bases (and thumb base) at 0.1, finger
tips at 0.2, thumb tip at 0.15 (pinch distance 0.05 < 0.08). -/
def px1 (i : ℕ) : ℝ :=
  if i = 4 then 0.15
  else if i = 8 ∨ i = 12 ∨ i = 16 ∨ i = 20 then 0.2
  else if i = 2 ∨ i = 5 ∨ i = 9 ∨ i = 13 ∨ i = 17 then 0.1
  else 0

/-- A hand satisfying both the PINCH and the OPEN condition. -/
def testHand1 : Hand := fun i => ⟨px1 i.val, 0, 0⟩

/-- x-coordinates like `px1` but with the thumb tip at 0.3, so that all five
digits are extended while the pinch distance is 0.1 ≥ 0.08. -/
def px2 (i : ℕ) : ℝ :=
  if i = 4 then 0.3
  else if i = 8 ∨ i = 12 ∨ i = 16 ∨ i = 20 then 0.2
  else if i = 2 ∨ i = 5 ∨ i = 9 ∨ i = 13 ∨ i = 17 then 0.1
  else 0

/-- A hand with all five digits extended and the PINCH condition false. -/
def testHand2 : Hand := fun i => ⟨px2 i.val, 0, 0⟩

/-- `testHand1` pinches: pinch distance 0.05 < 0.08, index extended. -/
theorem pinching_testHand1 : IsPinching testHand1 := by
  constructor
  · show ldist (testHand1 4) (testHand1 8) < 0.08
    have e : ldist (testHand1 4) (testHand1 8) = |(0.15 : ℝ) - 0.2| := by
      show ldist ⟨0.15, 0, 0⟩ ⟨0.2, 0, 0⟩ = _
      exact ldist_axis 0.15 0.2
    rw [e, abs_sub_comm, abs_of_nonneg (by norm_num : (0:ℝ) ≤ 0.2 - 0.15)]
    norm_num
  · show ldist (testHand1 8) (testHand1 0) > ldist (testHand1 5) (testHand1 0) * 1.1
    have e8 : ldist (testHand1 8) (testHand1 0) = |(0.2 : ℝ) - 0| := by
      show ldist ⟨0.2, 0, 0⟩ ⟨0, 0, 0⟩ = _
      exact ldist_axis 0.2 0
    have e5 : ldist (testHand1 5) (testHand1 0) = |(0.1 : ℝ) - 0| := by
      show ldist ⟨0.1, 0, 0⟩ ⟨0, 0, 0⟩ = _
      exact ldist_axis 0.1 0
    rw [e8, e5, abs_of_nonneg (by norm_num : (0:ℝ) ≤ 0.2 - 0),
      abs_of_nonneg (by norm_num : (0:ℝ) ≤ 0.1 - 0)]
    norm_num

/-- Helper: distance to a wrist at the origin along the x-axis. -/
theorem ldist_axis0 (a : ℝ) (ha : 0 ≤ a) : ldist ⟨a, 0, 0⟩ ⟨0, 0, 0⟩ = a := by
  rw [ldist_axis, sub_zero, abs_of_nonneg ha]

/-- All five digits of `testHand1` are extended. -/
theorem allFive_testHand1 : AllFiveExtended testHand1 := by
  refine ⟨?_, ?_, ?_, ?_, ?_⟩
  · show ldist ⟨0.2, 0, 0⟩ ⟨0, 0, 0⟩ > ldist ⟨0.1, 0, 0⟩ ⟨0, 0, 0⟩ * 1.5
    rw [ldist_axis0 _ (by norm_num), ldist_axis0 _ (by norm_num)]; norm_num
  · show ldist ⟨0.2, 0, 0⟩ ⟨0, 0, 0⟩ > ldist ⟨0.1, 0, 0⟩ ⟨0, 0, 0⟩ * 1.5
    rw [ldist_axis0 _ (by norm_num), ldist_axis0 _ (by norm_num)]; norm_num
  · show ldist ⟨0.2, 0, 0⟩ ⟨0, 0, 0⟩ > ldist ⟨0.1, 0, 0⟩ ⟨0, 0, 0⟩ * 1.5
    rw [ldist_axis0 _ (by norm_num), ldist_axis0 _ (by norm_num)]; norm_num
  · show ldist ⟨0.2, 0, 0⟩ ⟨0, 0, 0⟩ > ldist ⟨0.1, 0, 0⟩ ⟨0, 0, 0⟩ * 1.5
    rw [ldist_axis0 _ (by norm_num), ldist_axis0 _ (by norm_num)]; norm_num
  · show ldist ⟨0.15, 0, 0⟩ ⟨0, 0, 0⟩ > ldist ⟨0.1, 0, 0⟩ ⟨0, 0, 0⟩ * 1.2
    rw [ldist_axis0 _ (by norm_num), ldist_axis0 _ (by norm_num)]; norm_num

/-- All five digits of `testHand2` are extended. -/
theorem allFive_testHand2 : AllFiveExtended testHand2 := by
  refine ⟨?_, ?_, ?_, ?_, ?_⟩
  · show ldist ⟨0.2, 0, 0⟩ ⟨0, 0, 0⟩ > ldist ⟨0.1, 0, 0⟩ ⟨0, 0, 0⟩ * 1.5
    rw [ldist_axis0 _ (by norm_num), ldist_axis0 _ (by norm_num)]; norm_num
  · show ldist ⟨0.2, 0, 0⟩ ⟨0, 0, 0⟩ > ldist ⟨0.1, 0, 0⟩ ⟨0, 0, 0⟩ * 1.5
    rw [ldist_axis0 _ (by norm_num), ldist_axis0 _ (by norm_num)]; norm_num
  · show ldist ⟨0.2, 0, 0⟩ ⟨0, 0, 0⟩ > ldist ⟨0.1, 0, 0⟩ ⟨0, 0, 0⟩ * 1.5
    rw [ldist_axis0 _ (by norm_num), ldist_axis0 _ (by norm_num)]; norm_num
  · show ldist ⟨0.2, 0, 0⟩ ⟨0, 0, 0⟩ > ldist ⟨0.1, 0, 0⟩ ⟨0, 0, 0⟩ * 1.5
    rw [ldist_axis0 _ (by norm_num), ldist_axis0 _ (by norm_num)]; norm_num
  · show ldist ⟨0.3, 0, 0⟩ ⟨0, 0, 0⟩ > ldist ⟨0.1, 0, 0⟩ ⟨0, 0, 0⟩ * 1.2
    rw [ldist_axis0 _ (by norm_num), ldist_axis0 _ (by norm_num)]; norm_num

/-- `testHand2` does not pinch: its pinch distance is 0.1. -/
theorem notPinching_testHand2 : ¬ IsPinching testHand2 := by
  intro ⟨hd, _⟩
  have e : ldist (testHand2 4) (testHand2 8) = |(0.3 : ℝ) - 0.2| := by
    show ldist ⟨0.3, 0, 0⟩ ⟨0.2, 0, 0⟩ = _
    exact ldist_axis 0.3 0.2
  rw [show pinchDistance testHand2 = ldist (testHand2 4) (testHand2 8) from rfl,
    e, abs_of_nonneg (by norm_num : (0:ℝ) ≤ 0.3 - 0.2)] at hd
  norm_num at hd

/-- C6 witness: `testHand1` meets both the PINCH and the OPEN condition and
classifies as PINCH; `testHand2` has all five digits extended without
pinching and classifies as OPEN. -/
theorem classify_precedence_C6_witness :
    classify testHand1 = Gesture.PINCH
    ∧ extendedFingers testHand1 = 5
    ∧ classify testHand2 = Gesture.OPEN :=
  ⟨(classify_precedence_C6 testHand1).1 pinching_testHand1,
   (classify_precedence_C6 testHand1).2.2.2.2.1 allFive_testHand1,
   (classify_precedence_C6 testHand2).2.2.2.2.2 allFive_testHand2
     notPinching_testHand2⟩
